import Mathlib

/-!
Verification of the railway-result library (a TypeScript Railway-Oriented-
Programming Result type) against its specification.

The embedding models the dynamically-typed JavaScript values the library
manipulates as the inductive type `JSVal`.  Objects are association lists of
string-keyed fields (first match wins, as in JS property lookup); promises
are modelled by two constructors, `resolved` and `rejected`, carrying the
settled value; `errObj` models a freshly constructed `Error` instance with
its message.  Functions supplied by callers are modelled as
`JSVal → Except JSVal JSVal`, where `Except.error t` means the call threw
the value `t` and `Except.ok v` means it returned `v` (possibly a promise).
An async method is modelled as a function returning `Except JSVal JSVal`,
where `Except.error t` denotes a promise rejected with `t`; a method whose
body is entirely wrapped in try/catch is modelled as total (returning a
plain `JSVal`), which encodes that its promise never rejects.
-/

set_option autoImplicit false

namespace RailwayResult

mutual

/-- Model of a JavaScript runtime value as manipulated by the library. -/
inductive JSVal where
  /-- a number (modelled as an integer; NaN is out of scope) -/
  | num : Int → JSVal
  /-- a string -/
  | str : String → JSVal
  /-- a boolean -/
  | bool : Bool → JSVal
  /-- the value null -/
  | null : JSVal
  /-- the value undefined -/
  | undefined : JSVal
  /-- a plain object with named fields -/
  | obj : JFields → JSVal
  /-- an Error instance carrying its message (has no then or success key) -/
  | errObj : String → JSVal
  /-- a promise fulfilled with the given value -/
  | resolved : JSVal → JSVal
  /-- a promise rejected with the given value -/
  | rejected : JSVal → JSVal
  deriving DecidableEq

/-- The named fields of a modelled JavaScript object, in definition order. -/
inductive JFields where
  /-- no further fields -/
  | nil : JFields
  /-- a field with the given key and value, followed by the rest -/
  | cons : String → JSVal → JFields → JFields
  deriving DecidableEq

end

namespace JFields

/-- Whether a field list contains the given key, as the JS in operator
tests key presence (regardless of the stored value). -/
def hasField : JFields → String → Bool
  | nil, _ => false
  | cons k _ rest, key => k == key || rest.hasField key

/-- First-match field lookup, as in JS property access; a missing field
reads as undefined. -/
def getField : JFields → String → JSVal
  | nil, _ => JSVal.undefined
  | cons k v rest, key => if k == key then v else rest.getField key

end JFields

namespace JSVal

/-- JS truthiness: false, 0, the empty string, null and undefined are falsy;
objects, Error instances and promises are always truthy. -/
def jsTruthy : JSVal → Bool
  | num n => n != 0
  | str s => s != ""
  | bool b => b
  | null => false
  | undefined => false
  | obj _ => true
  | errObj _ => true
  | resolved _ => true
  | rejected _ => true

end JSVal

open JSVal

/-- Source: result.ts, `ok(value)` constructs a Success.  The constructed
instance carries the fields `success: true` and `data: value` (its methods
are modelled by the functions below). -/
def ok (value : JSVal) : JSVal :=
  .obj (.cons "success" (.bool true) (.cons "data" value .nil))

/-- Source: result.ts, `err(error)` constructs a Failure with the fields
`success: false` and `error`. -/
def err (error : JSVal) : JSVal :=
  .obj (.cons "success" (.bool false) (.cons "error" error .nil))

/-- The test `result && typeof result === 'object' && 'then' in result`
from SuccessImpl.map: objects (always truthy) with a then key, and
promises (whose prototype provides then), pass it. -/
def isThenable : JSVal → Bool
  | .obj fields => fields.hasField "then"
  | .resolved _ => true
  | .rejected _ => true
  | _ => false

/-- The test `x && typeof x === 'object' && 'success' in x` from
SuccessImpl.map: objects with a success key pass it; promises and Error
instances carry no success key. -/
def hasSuccessKey : JSVal → Bool
  | .obj fields => fields.hasField "success"
  | _ => false

/-- JS await: a promise settles to its fulfillment value (flattening nested
promises) or throws its rejection value; any non-promise value (including
an object whose then field is not callable, since all modelled field values
are data) is returned as-is. -/
def awaitVal : JSVal → Except JSVal JSVal
  | .resolved v => awaitVal v
  | .rejected e => .error e
  | v => .ok v

/-- The try-block of SuccessImpl.map (result.ts lines 31-53): call `fn`
on the payload; if the return value is thenable, await it; if the value
(after any await) carries a success key, return it as-is, otherwise wrap
it in `ok`.  `Except.error` propagates a throw or an await rejection. -/
def successMapBody (data : JSVal) (fn : JSVal → Except JSVal JSVal) :
    Except JSVal JSVal := do
  let result ← fn data
  if isThenable result then
    let awaited ← awaitVal result
    if hasSuccessKey awaited then
      pure awaited
    else
      pure (ok awaited)
  else if hasSuccessKey result then
    pure result
  else
    pure (ok result)

/-- SuccessImpl.map (result.ts lines 30-57): the try-block wrapped in the
catch clause `catch (error) { return err(error) }`.  Totality of this
function models that the returned promise never rejects. -/
def successMap (data : JSVal) (fn : JSVal → Except JSVal JSVal) : JSVal :=
  match successMapBody data fn with
  | .ok r => r
  | .error e => err e

/-- SuccessImpl.mapAsync (result.ts lines 60-62): delegates to map. -/
def successMapAsync (data : JSVal) (fn : JSVal → Except JSVal JSVal) : JSVal :=
  successMap data fn

/-- FailureImpl.map (result.ts lines 74-77): ignores the supplied function
entirely and returns `this`, i.e. the failure object `err e` itself. -/
def failureMap (error : JSVal) (_fn : JSVal → Except JSVal JSVal) : JSVal :=
  err error

/-- FailureImpl.mapAsync (result.ts lines 80-83): same as map. -/
def failureMapAsync (error : JSVal) (_fn : JSVal → Except JSVal JSVal) : JSVal :=
  err error

/-- guards.ts, `isOk(result)`: reads the success property and uses its JS
truthiness (for values built by ok and err the property is a literal
boolean).  Reading a property off a non-object yields undefined (falsy). -/
def isOk : JSVal → Bool
  | .obj fields => jsTruthy (fields.getField "success")
  | _ => false

/-- The data property of a result value, as read by the chain operators
(`r.data`); undefined when absent. -/
def dataOf : JSVal → JSVal
  | .obj fields => fields.getField "data"
  | _ => .undefined

/-- Method dispatch of `r.map(fn)` for a result `r` constructed by ok or
err: ok-built values run SuccessImpl.map on their data, err-built values
run FailureImpl.map, which returns the receiver itself. -/
def resultMap (r : JSVal) (fn : JSVal → Except JSVal JSVal) : JSVal :=
  if isOk r then successMap (dataOf r) fn else r

deriving instance DecidableEq for Except

/-- do-notation.ts: a ResultChain wraps one promise of a Result
(`private readonly result`).  `Except.error e` models that promise being
rejected with `e`; `Except.ok r` models it being fulfilled with the result
value `r`. -/
structure ResultChain where
  /-- the wrapped promise of a Result -/
  result : Except JSVal JSVal
  deriving DecidableEq

/-- do-notation.ts lines 13-15, `Do(initialValue)`: wraps
`Promise.resolve(ok(initialValue))`. -/
def Do (initialValue : JSVal) : ResultChain :=
  ⟨.ok (ok initialValue)⟩

namespace ResultChain

/-- do-notation.ts lines 26-28, `map(fn)`: a new chain wrapping
`this.result.then(r => r.map(fn))`.  A rejected wrapped promise skips the
callback and stays rejected; r.map never rejects. -/
def map (c : ResultChain) (fn : JSVal → Except JSVal JSVal) : ResultChain :=
  ⟨match c.result with
   | .error e => .error e
   | .ok r => .ok (resultMap r fn)⟩

/-- do-notation.ts lines 33-35, `async(fn)`: identical body to map,
delegating to r.map. -/
def async (c : ResultChain) (fn : JSVal → Except JSVal JSVal) : ResultChain :=
  ⟨match c.result with
   | .error e => .error e
   | .ok r => .ok (resultMap r fn)⟩

/-- do-notation.ts lines 40-49, `ensure(predicate, errorMsg)`: on a
fulfilled ok result, evaluates the predicate and keeps the result or
replaces it with `err errorMsg`; a non-ok result is returned unchanged.
A predicate that throws rejects the new wrapped promise (the async
callback has no try/catch). -/
def ensure (c : ResultChain) (predicate : JSVal → Except JSVal Bool)
    (errorMsg : JSVal) : ResultChain :=
  ⟨match c.result with
   | .error e => .error e
   | .ok r =>
     if isOk r then
       match predicate (dataOf r) with
       | .error ex => .error ex
       | .ok true => .ok r
       | .ok false => .ok (err errorMsg)
     else .ok r⟩

/-- do-notation.ts lines 54-64, `chain(fn)`: on a fulfilled ok result,
returns `fn(r.data)` as the new result; a non-ok result passes through.
A throwing fn rejects the new wrapped promise (no try/catch). -/
def chain (c : ResultChain) (fn : JSVal → Except JSVal JSVal) : ResultChain :=
  ⟨match c.result with
   | .error e => .error e
   | .ok r =>
     if isOk r then
       match fn (dataOf r) with
       | .error ex => .error ex
       | .ok next => .ok next
     else .ok r⟩

/-- do-notation.ts lines 69-79, `chainAsync(fn)`: on a fulfilled ok
result, awaits `fn(r.data)`; a non-ok result passes through.  A throwing
fn, or a rejection of the awaited promise, rejects the new wrapped
promise — the callback has no try/catch. -/
def chainAsync (c : ResultChain) (fn : JSVal → Except JSVal JSVal) :
    ResultChain :=
  ⟨match c.result with
   | .error e => .error e
   | .ok r =>
     if isOk r then
       match fn (dataOf r) with
       | .error ex => .error ex
       | .ok ret =>
         match awaitVal ret with
         | .error ex => .error ex
         | .ok next => .ok next
     else .ok r⟩

/-- do-notation.ts lines 84-86, `run()`: returns the wrapped promise. -/
def run (c : ResultChain) : Except JSVal JSVal :=
  c.result

/-- The method call `c.run()` with the receiver's state made explicit:
the body `return this.result` reads the readonly field and assigns
nothing, so the call yields the wrapped promise and the receiver state it
leaves behind is the chain itself. -/
def runS (c : ResultChain) : Except JSVal JSVal × ResultChain :=
  (c.result, c)

end ResultChain

/-- The input shape accepted by zodToResult (zod-helpers.ts):
`{ success: boolean; data?: T; error?: any }`; an absent optional field
reads as undefined. -/
structure ZodParseLike where
  /-- the success discriminator of the external validation result -/
  success : Bool
  /-- the parsed payload; undefined when absent -/
  data : JSVal
  /-- the validation error; undefined when absent -/
  error : JSVal
  deriving DecidableEq

/-- zod-helpers.ts lines 96-102, `zodToResult(zodResult)`: ok(data) when
success is true and data is strictly not undefined; otherwise
`err(zodResult.error || new Error("Validation failed"))` — the || falls
back to the fresh Error whenever the error field is falsy. -/
def zodToResult (z : ZodParseLike) : JSVal :=
  if z.success && !(z.data == JSVal.undefined) then
    ok z.data
  else
    err (if jsTruthy z.error then z.error else .errObj "Validation failed")

/-- utils.ts lines 27-33, `toPromise(result)`: resolves with the data of
an ok result and rejects with the error of a failure. -/
def toPromise (r : JSVal) : Except JSVal JSVal :=
  if isOk r then
    .ok (dataOf r)
  else
    .error (match r with
            | .obj fields => fields.getField "error"
            | _ => .undefined)

/-- utils.ts lines 14-21, `fromPromise(promise)`: awaits the promise,
wrapping the value in ok and a rejection in err; never rejects itself. -/
def fromPromise (p : JSVal) : JSVal :=
  match awaitVal p with
  | .ok v => ok v
  | .error e => err e

/-- The step function `x => x * 2` from the spec's chain-ordering example,
on modelled values. -/
def doubleFn : JSVal → Except JSVal JSVal := fun x =>
  .ok (match x with | .num n => .num (n * 2) | _ => .undefined)

/-- The step function `x => x + 3` from the spec's chain-ordering example. -/
def addThreeFn : JSVal → Except JSVal JSVal := fun x =>
  .ok (match x with | .num n => .num (n + 3) | _ => .undefined)

/-- The step function `x => String(x)` from the spec's chain-ordering
example (numbers print as in JS; other inputs are out of the example's
scope). -/
def stringifyFn : JSVal → Except JSVal JSVal := fun x =>
  .ok (match x with | .num n => .str (toString n) | _ => .undefined)

/-- The predicate `x => x > 0` from the spec's short-circuit example. -/
def positivePred : JSVal → Except JSVal Bool := fun x =>
  .ok (match x with | .num n => decide (0 < n) | _ => false)

/-- The step function `x => success(x)` from the spec's short-circuit
example. -/
def wrapOkFn : JSVal → Except JSVal JSVal := fun x => .ok (ok x)

/-- A payload object that merely happens to have a success field (value
"yes") next to an unrelated field — not built by ok or err. -/
def successKeyedPayload : JFields :=
  .cons "success" (.str "yes") (.cons "foo" (.num 1) .nil)

end RailwayResult

namespace RailwayResult

open JSVal

theorem isOk_ok (v : JSVal) : isOk (ok v) = true := rfl

theorem isOk_err (e : JSVal) : isOk (err e) = false := rfl

theorem dataOf_ok (v : JSVal) : dataOf (ok v) = v := rfl

theorem resultMap_err (e : JSVal) (fn : JSVal → Except JSVal JSVal) :
    resultMap (err e) fn = err e := rfl

theorem resultMap_ok (v : JSVal) (fn : JSVal → Except JSVal JSVal) :
    resultMap (ok v) fn = successMap v fn := rfl

/-- C1: on a Success payload v, transform applies fn and handles all four
return shapes: a plain synchronous value u (no then key, no success key)
is wrapped as ok u; a value carrying the success discriminator is
returned as-is with no double wrapping; a thenable is awaited first, and
the awaited value is then returned as-is if it carries the success
discriminator and wrapped as ok otherwise — one operator acting as map
for plain returns and as flatMap for Result returns. -/
theorem transform_four_return_shapes (v u : JSVal)
    (fn : JSVal → Except JSVal JSVal) :
    (fn v = .ok u → isThenable u = false → hasSuccessKey u = false →
      successMap v fn = ok u)
    ∧ (fn v = .ok u → isThenable u = false → hasSuccessKey u = true →
      successMap v fn = u)
    ∧ (∀ p, fn v = .ok p → isThenable p = true → awaitVal p = .ok u →
      hasSuccessKey u = false → successMap v fn = ok u)
    ∧ (∀ p, fn v = .ok p → isThenable p = true → awaitVal p = .ok u →
      hasSuccessKey u = true → successMap v fn = u) := by
  refine ⟨?_, ?_, ?_, ?_⟩
  · intro h1 h2 h3
    simp [successMap, successMapBody, h1, h2, h3, Bind.bind, Except.bind,
      Pure.pure, Except.pure]
  · intro h1 h2 h3
    simp [successMap, successMapBody, h1, h2, h3, Bind.bind, Except.bind,
      Pure.pure, Except.pure]
  · intro p h1 h2 h3 h4
    simp [successMap, successMapBody, h1, h2, h3, h4, Bind.bind, Except.bind,
      Pure.pure, Except.pure]
  · intro p h1 h2 h3 h4
    simp [successMap, successMapBody, h1, h2, h3, h4, Bind.bind, Except.bind,
      Pure.pure, Except.pure]

/-- Witness for C1: the four shapes at concrete inputs — a plain number,
a genuine ok result, a promise of a number and a promise of an err
result. -/
theorem transform_four_return_shapes_witness :
    successMap (num 1) (fun _ => .ok (num 7)) = ok (num 7)
    ∧ successMap (num 1) (fun _ => .ok (ok (num 7))) = ok (num 7)
    ∧ successMap (num 1) (fun _ => .ok (resolved (num 7))) = ok (num 7)
    ∧ successMap (num 1) (fun _ => .ok (resolved (err (num 3)))) = err (num 3) :=
  ⟨(transform_four_return_shapes (num 1) (num 7)
      (fun _ => .ok (num 7))).1 rfl (by decide) (by decide),
   (transform_four_return_shapes (num 1) (ok (num 7))
      (fun _ => .ok (ok (num 7)))).2.1 rfl (by decide) (by decide),
   (transform_four_return_shapes (num 1) (num 7)
      (fun _ => .ok (resolved (num 7)))).2.2.1 (resolved (num 7))
      rfl (by decide) (by decide) (by decide),
   (transform_four_return_shapes (num 1) (err (num 3))
      (fun _ => .ok (resolved (err (num 3))))).2.2.2 (resolved (err (num 3)))
      rfl (by decide) (by decide) (by decide)⟩

/-- C2: on a Success payload, a function that throws the value t, or whose
returned thenable rejects with t when awaited, makes transform return a
Failure carrying t verbatim; the try/catch around the whole body (modelled
by the totality of successMap, whose codomain is a settled value rather
than a possibly-rejecting promise) guarantees transform itself never
throws or rejects. -/
theorem transform_absorbs_throw_and_rejection (v t : JSVal)
    (fn : JSVal → Except JSVal JSVal) :
    (fn v = .error t → successMap v fn = err t)
    ∧ (∀ p, fn v = .ok p → isThenable p = true → awaitVal p = .error t →
      successMap v fn = err t) := by
  constructor
  · intro h1
    simp [successMap, successMapBody, h1, Bind.bind, Except.bind]
  · intro p h1 h2 h3
    simp [successMap, successMapBody, h1, h2, h3, Bind.bind, Except.bind,
      Pure.pure, Except.pure]

/-- Witness for C2: a function throwing the string t, and one returning a
promise rejected with the string t, both concrete. -/
theorem transform_absorbs_throw_and_rejection_witness :
    successMap (num 1) (fun _ => .error (str "t")) = err (str "t")
    ∧ successMap (num 1) (fun _ => .ok (rejected (str "t"))) = err (str "t") :=
  ⟨(transform_absorbs_throw_and_rejection (num 1) (str "t")
      (fun _ => .error (str "t"))).1 rfl,
   (transform_absorbs_throw_and_rejection (num 1) (str "t")
      (fun _ => .ok (rejected (str "t")))).2 (rejected (str "t"))
      rfl (by decide) (by decide)⟩

/-- C3: transform on a Failure returns the same failure payload unchanged
and never invokes the supplied function — the result is identical for any
two supplied functions (the model is pure, so function-irrelevance is the
observable form of invoking no function and performing no side effects),
for both map and its mapAsync alias. -/
theorem failure_transform_ignores_function (e : JSVal)
    (fn fn2 : JSVal → Except JSVal JSVal) :
    failureMap e fn = err e
    ∧ failureMap e fn = failureMap e fn2
    ∧ failureMapAsync e fn = err e
    ∧ failureMapAsync e fn = failureMapAsync e fn2 :=
  ⟨rfl, rfl, rfl, rfl⟩

/-- C4: once the running value of a chain is the failure err e, each of
map, async, ensure, chain and chainAsync leaves the wrapped result equal
to err e and is independent of the supplied function or predicate (so the
function is never invoked), and the spec's concrete short-circuit chain
yields Failure E1. -/
theorem failure_short_circuits_chain (e : JSVal) (c : ResultChain)
    (h : c.result = .ok (err e)) :
    (∀ f g, (c.map f).result = .ok (err e) ∧ c.map f = c.map g)
    ∧ (∀ f g, (c.async f).result = .ok (err e) ∧ c.async f = c.async g)
    ∧ (∀ p q m, (c.ensure p m).result = .ok (err e)
        ∧ c.ensure p m = c.ensure q m)
    ∧ (∀ f g, (c.chain f).result = .ok (err e) ∧ c.chain f = c.chain g)
    ∧ (∀ f g, (c.chainAsync f).result = .ok (err e)
        ∧ c.chainAsync f = c.chainAsync g)
    ∧ ((((Do (num (-5))).ensure positivePred (str "E1")).map doubleFn).chain
        wrapOkFn).run = .ok (err (str "E1")) := by
  refine ⟨?_, ?_, ?_, ?_, ?_, by decide⟩
  · intro f g
    constructor <;> simp [ResultChain.map, h, resultMap, isOk_err]
  · intro f g
    constructor <;> simp [ResultChain.async, h, resultMap, isOk_err]
  · intro p q m
    constructor <;> simp [ResultChain.ensure, h, isOk_err]
  · intro f g
    constructor <;> simp [ResultChain.chain, h, isOk_err]
  · intro f g
    constructor <;> simp [ResultChain.chainAsync, h, isOk_err]

/-- Witness for C4: a chain already failed with E rides through a
subsequent map step unchanged. -/
theorem failure_short_circuits_chain_witness :
    (((Do (num (-1))).ensure positivePred (str "E")).map doubleFn).result
      = .ok (err (str "E")) :=
  ((failure_short_circuits_chain (str "E")
      ((Do (num (-1))).ensure positivePred (str "E")) (by decide)).1
    doubleFn doubleFn).1

/-- C5 counterexample: chainAsync has no try/catch, so a supplied function
whose promise rejects with the string boom leaves the chain's wrapped
promise rejected (a language-level rejection observable from run), not
fulfilled with a Failure carrying boom — refuting the claim that the
exception is caught and converted into a Failure. -/
theorem chainAsync_rejection_surfaces_uncaught :
    ((Do (num 0)).chainAsync (fun _ => .ok (rejected (str "boom")))).run
      = .error (str "boom")
    ∧ ((Do (num 0)).chainAsync (fun _ => .ok (rejected (str "boom")))).run
      ≠ .ok (err (str "boom")) := by
  constructor
  · decide
  · decide

/-- C5 amended: a chainAsync step whose supplied function throws t, or
whose returned promise rejects with t during the await, propagates t as a
rejection of the chain's wrapped promise (uncaught); only the map and
async steps absorb exceptions into Failure values. -/
theorem chainAsync_rejection_propagates_as_rejection (c : ResultChain)
    (r t : JSVal) (fn : JSVal → Except JSVal JSVal)
    (h : c.result = .ok r) (hok : isOk r = true) :
    (fn (dataOf r) = .error t → (c.chainAsync fn).result = .error t)
    ∧ (∀ p, fn (dataOf r) = .ok p → awaitVal p = .error t →
      (c.chainAsync fn).result = .error t) := by
  constructor
  · intro h1
    simp [ResultChain.chainAsync, h, hok, h1]
  · intro p h1 h2
    simp [ResultChain.chainAsync, h, hok, h1, h2]

/-- Witness for the amended C5: a concrete rejecting chainAsync step
rejects the wrapped promise with the same value. -/
theorem chainAsync_rejection_propagates_as_rejection_witness :
    ((Do (num 2)).chainAsync (fun _ => .ok (rejected (str "boom")))).result
      = .error (str "boom") :=
  (chainAsync_rejection_propagates_as_rejection (Do (num 2)) (ok (num 2))
      (str "boom") (fun _ => .ok (rejected (str "boom"))) rfl (by decide)).2
    (rejected (str "boom")) rfl (by decide)

/-- C6: ensure on a success running value keeps the value when the
predicate returns true and replaces it with err errorMsg when the
predicate returns false; on a failed running value the failure passes
through and the outcome is independent of the predicate (failure-state is
checked before the predicate, which is therefore not evaluated). -/
theorem ensure_checks_failure_before_predicate (c : ResultChain)
    (v e em : JSVal) (predicate : JSVal → Except JSVal Bool) :
    (c.result = .ok (ok v) → predicate v = .ok true →
      (c.ensure predicate em).result = .ok (ok v))
    ∧ (c.result = .ok (ok v) → predicate v = .ok false →
      (c.ensure predicate em).result = .ok (err em))
    ∧ (∀ q, c.result = .ok (err e) →
      (c.ensure predicate em).result = .ok (err e)
      ∧ c.ensure predicate em = c.ensure q em) := by
  refine ⟨?_, ?_, ?_⟩
  · intro h hp
    simp [ResultChain.ensure, h, isOk_ok, dataOf_ok, hp]
  · intro h hp
    simp [ResultChain.ensure, h, isOk_ok, dataOf_ok, hp]
  · intro q h
    constructor <;> simp [ResultChain.ensure, h, isOk_err]

/-- Witness for C6: a passing and a failing predicate at concrete
inputs. -/
theorem ensure_checks_failure_before_predicate_witness :
    ((Do (num 4)).ensure positivePred (str "E")).result = .ok (ok (num 4))
    ∧ ((Do (num (-4))).ensure positivePred (str "E")).result
      = .ok (err (str "E")) :=
  ⟨(ensure_checks_failure_before_predicate (Do (num 4)) (num 4) .undefined
      (str "E") positivePred).1 rfl (by decide),
   (ensure_checks_failure_before_predicate (Do (num (-4))) (num (-4)) .undefined
      (str "E") positivePred).2.1 rfl (by decide)⟩

/-- C7: Do wraps an immediately-resolved ok of the initial value, and the
spec's three-step chain applies the maps in attachment order, yielding
Success of the string 13. -/
theorem begin_wraps_success_and_maps_in_order :
    (∀ v, (Do v).result = .ok (ok v))
    ∧ ((((Do (num 5)).map doubleFn).map addThreeFn).map stringifyFn).run
      = .ok (ok (str "13")) :=
  ⟨fun _ => rfl, by decide⟩

/-- C8 counterexample: at input success false with the defined but falsy
error payload 0, zodToResult substitutes the default validation Error (the
code tests the error with the falsy-coalescing operator), whereas the
claim's nullish-coalescing reading (error not nullish, so Failure(0))
predicts the failure payload 0. -/
theorem zodToResult_falsy_error_uses_default_counterexample :
    zodToResult ⟨false, .undefined, num 0⟩ = err (.errObj "Validation failed")
    ∧ zodToResult ⟨false, .undefined, num 0⟩ ≠ err (num 0) := by
  constructor
  · decide
  · decide

/-- C8 amended: zodToResult returns ok data exactly when success is true
and data is defined; otherwise it returns a Failure carrying the error
field when that field is truthy and the default validation Error whenever
the error field is falsy (undefined, null, false, 0 or the empty string) —
not only when it is nullish; the spec's three concrete examples hold. -/
theorem zodToResult_adapter_semantics (z : ZodParseLike) :
    (z.success = true → z.data ≠ .undefined → zodToResult z = ok z.data)
    ∧ ((z.success = false ∨ z.data = .undefined) → jsTruthy z.error = true →
      zodToResult z = err z.error)
    ∧ ((z.success = false ∨ z.data = .undefined) → jsTruthy z.error = false →
      zodToResult z = err (.errObj "Validation failed"))
    ∧ zodToResult ⟨true, .undefined, .undefined⟩ = err (.errObj "Validation failed")
    ∧ zodToResult ⟨false, .undefined, .undefined⟩ = err (.errObj "Validation failed")
    ∧ zodToResult ⟨true, .obj (.cons "a" (num 1) .nil), .undefined⟩
      = ok (.obj (.cons "a" (num 1) .nil)) := by
  refine ⟨?_, ?_, ?_, by decide, by decide, by decide⟩
  · intro hs hd
    simp [zodToResult, hs, hd]
  · intro hor he
    rcases hor with hs | hd
    · simp [zodToResult, hs, he]
    · simp [zodToResult, hd, he]
  · intro hor he
    rcases hor with hs | hd
    · simp [zodToResult, hs, he]
    · simp [zodToResult, hd, he]

/-- Witness for the amended C8: a defined payload and a truthy error at
concrete inputs. -/
theorem zodToResult_adapter_semantics_witness :
    zodToResult ⟨true, num 5, .undefined⟩ = ok (num 5)
    ∧ zodToResult ⟨false, .undefined, str "boom"⟩ = err (str "boom") :=
  ⟨(zodToResult_adapter_semantics ⟨true, num 5, .undefined⟩).1 rfl (by decide),
   (zodToResult_adapter_semantics ⟨false, .undefined, str "boom"⟩).2.1
      (Or.inl rfl) (by decide)⟩

/-- C9: the run method call, with the receiver state passed explicitly,
returns the wrapped promise and leaves the builder unchanged, so a second
call on the resulting state returns an equal Result value; run itself is
that same read. -/
theorem run_pure_and_idempotent (c : ResultChain) :
    (c.runS).2 = c ∧ (c.runS).1 = (((c.runS).2).runS).1
    ∧ c.run = (c.runS).1 :=
  ⟨rfl, rfl, rfl⟩

/-- C10: shape detection in transform is by key presence, not by genuine
Result construction: any object carrying a success field (and no then
field), whether returned directly or behind an awaited promise, is
returned as-is and never wrapped in ok. -/
theorem success_key_shape_sniffing (v : JSVal) (fields : JFields)
    (fn : JSVal → Except JSVal JSVal)
    (hs : fields.hasField "success" = true)
    (ht : fields.hasField "then" = false) :
    (fn v = .ok (.obj fields) → successMap v fn = .obj fields)
    ∧ (fn v = .ok (.resolved (.obj fields)) → successMap v fn = .obj fields) := by
  constructor
  · intro h1
    simp [successMap, successMapBody, h1, isThenable, hasSuccessKey, hs, ht,
      Bind.bind, Except.bind, Pure.pure, Except.pure]
  · intro h1
    simp [successMap, successMapBody, h1, isThenable, hasSuccessKey, hs, ht,
      awaitVal, Bind.bind, Except.bind, Pure.pure, Except.pure]

/-- Witness for C10: a plain payload object with a stray success field is
delivered as-is, not wrapped in ok. -/
theorem success_key_shape_sniffing_witness :
    successMap (num 0) (fun _ => .ok (.obj successKeyedPayload))
      = .obj successKeyedPayload
    ∧ successMap (num 0) (fun _ => .ok (.obj successKeyedPayload))
      ≠ ok (.obj successKeyedPayload) :=
  ⟨(success_key_shape_sniffing (num 0) successKeyedPayload
      (fun _ => .ok (.obj successKeyedPayload)) (by decide) (by decide)).1 rfl,
   by decide⟩

end RailwayResult
